import Mathlib

/-!
Shallow embedding of `src/autogen/experimental/terminations/default_termination.py`
(class `DefaultTermination`): a conversation-termination evaluator that inspects a
turn counter and a read-only transcript of messages and produces a verdict.

The message and result types (`UserMessage`, `AssistantMessage`, `Terminated`,
`NotTerminated`, `TerminationReason`) live in sibling modules of the repository
that are not part of the provided source; they are modelled from the spec
(sections 3 and 9) together with the source file's own comment
`TODO handle multimodal list of str/image type`, which records that non-textual
user content is a list of strings/images.

Python semantics made explicit in the embedding:
`phrase in content` on a string is substring containment; on a list it is
element-wise equality membership (a string element matches iff it equals the
phrase; an image never equals a string); on a non-iterable object it raises
`TypeError`.  Raising is modelled with `Except`.
-/

namespace Autogen

/-- Modelled from the spec: the closed set of reason codes of the sibling
`termination` module (`MAX_TURNS_REACHED`, `TERMINATION_MESSAGE`,
`USER_REQUESTED`). -/
inductive TerminationReason where
  | MAX_TURNS_REACHED
  | TERMINATION_MESSAGE
  | USER_REQUESTED
deriving DecidableEq

/-- Modelled from the spec: the tagged verdict type of the sibling
`termination` module: `NotTerminated` with no payload, or
`Terminated {reason, detail}`. -/
inductive TerminationResult where
  | notTerminated
  | terminated (reason : TerminationReason) (detail : String)
deriving DecidableEq

/-- A Python runtime error surfaced by the embedded code.  The only one the
embedded source can raise is `TypeError`, from evaluating `phrase in content`
on a non-iterable, non-string content object. -/
inductive PyError where
  | typeError
deriving DecidableEq

/-- Modelled from the spec: one element of a multimodal user-content list,
a string or an image (the image payload is opaque to the evaluator). -/
inductive ContentPart where
  | text (s : String)
  | image (data : Nat)
deriving DecidableEq

/-- Modelled from the spec: the content field of a user message.  The declared
union is a plain string or a multimodal list of string/image parts; the extra
`unrecognized` constructor stands for a content object outside the declared
union (a malformed, non-string, non-iterable payload), which the spec's error
handling section explicitly discusses. -/
inductive UserContent where
  | text (s : String)
  | parts (l : List ContentPart)
  | unrecognized (tag : Nat)
deriving DecidableEq

/-- Modelled from the spec: a transcript entry.  A user message carries content
and an `is_termination` flag; an assistant message carries optional textual
content; `otherRole` stands for any message of another role (system, tool, ...),
which falls through both type tests of the evaluator. -/
inductive Message where
  | user (content : UserContent) (is_termination : Bool)
  | assistant (content : Option String)
  | otherRole
deriving DecidableEq

/-- Modelled from the spec: an opaque agent identity, accepted by
`record_turn_taken` but never inspected. -/
structure Agent where
  name : String
deriving DecidableEq

/-- The evaluator's fields: `_termination_message`, `_max_turns`, `_turns`
(source lines 9-11).  `_turns` starts at 0 and is only ever incremented or
reset to 0, so it is a `Nat`; `_max_turns` is a plain Python `int`. -/
structure DefaultTermination where
  termination_message : String
  max_turns : Int
  turns : Nat
deriving DecidableEq

/-- Constructor `__init__` (source lines 8-11): stores the configuration and
initialises the turn counter to 0. -/
def DefaultTermination.init (termination_message : String) (max_turns : Int) :
    DefaultTermination :=
  { termination_message := termination_message, max_turns := max_turns, turns := 0 }

/-- Method `record_turn_taken` (source lines 13-14): increments `_turns` by 1,
ignoring the agent argument. -/
def record_turn_taken (self : DefaultTermination) (agent : Agent) : DefaultTermination :=
  { self with turns := self.turns + 1 }

/-- A sequence of `n` consecutive `record_turn_taken` calls. -/
def record_many (ag : Agent) : Nat → DefaultTermination → DefaultTermination
  | 0, st => st
  | n + 1, st => record_turn_taken (record_many ag n st) ag

/-- Method `reset` (source lines 36-37): sets `_turns` back to 0. -/
def reset (self : DefaultTermination) : DefaultTermination :=
  { self with turns := 0 }

/-- Whether `needle` is a prefix of `hay` (character lists). -/
def listStartsWith : List Char → List Char → Bool
  | [], _ => true
  | _ :: _, [] => false
  | a :: as, b :: bs => a == b && listStartsWith as bs

/-- Whether `needle` occurs as a contiguous sublist of `hay`. -/
def listContainsSub (needle : List Char) : List Char → Bool
  | [] => needle.isEmpty
  | c :: rest => listStartsWith needle (c :: rest) || listContainsSub needle rest

/-- Python's `needle in hay` for strings: unanchored, case-sensitive substring
containment. -/
def containsSubstr (needle hay : String) : Bool :=
  listContainsSub needle.data hay.data

/-- Python's `phrase in content` evaluated on a user-content value:
substring test on a string, equality membership on a list (an image element
never equals a string), `TypeError` on an unrecognized non-iterable object. -/
def pyInUserContent (phrase : String) : UserContent → Except PyError Bool
  | .text s => .ok (containsSubstr phrase s)
  | .parts l =>
      .ok (l.any fun p => match p with
        | .text s => s == phrase
        | .image _ => false)
  | .unrecognized _ => .error .typeError

/-- The user-message branch of the scan loop (source lines 22-29):
(a) `isinstance(content, str) and phrase in content` returns
`TERMINATION_MESSAGE`; (b) `message.is_termination` returns `USER_REQUESTED`;
(c) `elif phrase in message.content` returns `TERMINATION_MESSAGE` (note: this
last containment test is NOT guarded by `isinstance(content, str)`). -/
def check_user_message (phrase : String) (content : UserContent) (is_t : Bool) :
    Except PyError (Option TerminationResult) :=
  if (match content with | .text s => containsSubstr phrase s | _ => false) then
    .ok (some (.terminated .TERMINATION_MESSAGE "Termination message received."))
  else if is_t then
    .ok (some (.terminated .USER_REQUESTED "User requested termination."))
  else
    match pyInUserContent phrase content with
    | .error e => .error e
    | .ok b =>
        if b then .ok (some (.terminated .TERMINATION_MESSAGE "Termination message received."))
        else .ok none

/-- The body of the scan loop for one message (source lines 21-32): the
user-message branch, then the assistant-message branch (phrase containment only
when content is not `None`); any other role falls through with no match. -/
def match_message (phrase : String) : Message → Except PyError (Option TerminationResult)
  | .user content is_t => check_user_message phrase content is_t
  | .assistant content =>
      match content with
      | some s =>
          if containsSubstr phrase s then
            .ok (some (.terminated .TERMINATION_MESSAGE "Termination message received."))
          else .ok none
      | none => .ok none
  | .otherRole => .ok none

/-- The `for message in chat_history.messages` loop (source lines 21-34):
first matching message wins; an empty or exhausted scan yields
`NotTerminated()`. -/
def scan_messages (phrase : String) : List Message → Except PyError TerminationResult
  | [] => .ok .notTerminated
  | m :: rest =>
      match match_message phrase m with
      | .error e => .error e
      | .ok (some r) => .ok r
      | .ok none => scan_messages phrase rest

/-- Method `check_termination` (source lines 16-34): the turn-limit guard
`self._turns >= self._max_turns` short-circuits with `MAX_TURNS_REACHED`;
otherwise the transcript is scanned in order. -/
def check_termination (self : DefaultTermination) (messages : List Message) :
    Except PyError TerminationResult :=
  if (self.turns : Int) ≥ self.max_turns then
    .ok (.terminated .MAX_TURNS_REACHED "Max turns reached.")
  else
    scan_messages self.termination_message messages

/-- `check_termination` together with the evaluator state after the call.
The method body contains no assignment to `self`, so the state it returns is
the state it was given. -/
def check_termination_s (self : DefaultTermination) (messages : List Message) :
    Except PyError TerminationResult × DefaultTermination :=
  (check_termination self messages, self)

/-- Variant of the user-message branch with the second phrase-containment check
(source lines 28-29, sub-rule (c)) removed: each user message is checked only by
sub-rule (a) then sub-rule (b). -/
def check_user_message_v (phrase : String) (content : UserContent) (is_t : Bool) :
    Option TerminationResult :=
  if (match content with | .text s => containsSubstr phrase s | _ => false) then
    some (.terminated .TERMINATION_MESSAGE "Termination message received.")
  else if is_t then
    some (.terminated .USER_REQUESTED "User requested termination.")
  else
    none

/-- Loop body of the variant evaluator (assistant and other roles unchanged). -/
def match_message_v (phrase : String) : Message → Option TerminationResult
  | .user content is_t => check_user_message_v phrase content is_t
  | .assistant content =>
      match content with
      | some s =>
          if containsSubstr phrase s then
            some (.terminated .TERMINATION_MESSAGE "Termination message received.")
          else none
      | none => none
  | .otherRole => none

/-- Scan loop of the variant evaluator. -/
def scan_messages_v (phrase : String) : List Message → TerminationResult
  | [] => .notTerminated
  | m :: rest =>
      match match_message_v phrase m with
      | some r => r
      | none => scan_messages_v phrase rest

/-- The variant `check_termination` with sub-rule (c) removed.  It can never
raise, so it returns a plain verdict. -/
def check_termination_v (self : DefaultTermination) (messages : List Message) :
    TerminationResult :=
  if (self.turns : Int) ≥ self.max_turns then
    .terminated .MAX_TURNS_REACHED "Max turns reached."
  else
    scan_messages_v self.termination_message messages

/-- A message whose fields stay inside the declared union types (no
`unrecognized` user content). -/
def message_well_typed : Message → Bool
  | .user (.unrecognized _) _ => false
  | _ => true

/-- A user message whose content is a plain string, or any non-user message. -/
def user_content_textual : Message → Bool
  | .user (.text _) _ => true
  | .user _ _ => false
  | _ => true

/-- A message the phrase rule can scan: a user message with textual content, or
an assistant message with present content. -/
def phrase_scannable : Message → Bool
  | .user (.text _) _ => true
  | .assistant (some _) => true
  | _ => false

/-! Helper lemmas shared by the claim theorems. -/

lemma listContainsSub_nil_left (l : List Char) : listContainsSub [] l = true := by
  cases l <;> simp [listContainsSub, listStartsWith, List.isEmpty]

lemma containsSubstr_empty_left (s : String) : containsSubstr "" s = true :=
  listContainsSub_nil_left s.data

lemma record_many_eq (ag : Agent) (n : Nat) (st : DefaultTermination) :
    record_many ag n st = { st with turns := st.turns + n } := by
  induction n with
  | zero => rfl
  | succ k ih =>
      show record_turn_taken (record_many ag k st) ag = _
      rw [ih]
      rfl

lemma check_not_limit (st : DefaultTermination) (msgs : List Message)
    (h : (st.turns : Int) < st.max_turns) :
    check_termination st msgs = scan_messages st.termination_message msgs := by
  unfold check_termination
  rw [if_neg (not_le.mpr h)]

lemma scan_cons_none {p : String} {m : Message} (rest : List Message)
    (h : match_message p m = .ok none) :
    scan_messages p (m :: rest) = scan_messages p rest := by
  simp only [scan_messages, h]

lemma scan_cons_some {p : String} {m : Message} {r : TerminationResult}
    (rest : List Message) (h : match_message p m = .ok (some r)) :
    scan_messages p (m :: rest) = .ok r := by
  simp only [scan_messages, h]

lemma scan_append_none {p : String} (pre ms : List Message)
    (h : ∀ m ∈ pre, match_message p m = .ok none) :
    scan_messages p (pre ++ ms) = scan_messages p ms := by
  induction pre with
  | nil => rfl
  | cons m pre ih =>
      rw [List.cons_append, scan_cons_none _ (h m (by simp))]
      exact ih fun m' hm' => h m' (by simp [hm'])

lemma check_first_match (st : DefaultTermination) (pre : List Message) (m : Message)
    (rest : List Message) (r : TerminationResult)
    (hlim : (st.turns : Int) < st.max_turns)
    (hpre : ∀ m' ∈ pre, match_message st.termination_message m' = .ok none)
    (hm : match_message st.termination_message m = .ok (some r)) :
    check_termination st (pre ++ m :: rest) = .ok r := by
  rw [check_not_limit st _ hlim, scan_append_none pre _ hpre, scan_cons_some rest hm]

lemma match_user_parts_eq (phrase : String) (l : List ContentPart) (it : Bool) :
    match_message phrase (.user (.parts l) it) =
      .ok (if it then some (.terminated .USER_REQUESTED "User requested termination.")
        else if l.any (fun p => match p with | .text s => s == phrase | .image _ => false) then
          some (.terminated .TERMINATION_MESSAGE "Termination message received.")
        else none) := by
  cases it <;>
    simp only [match_message, check_user_message, pyInUserContent, if_false, if_true,
      Bool.false_eq_true, ite_false, ite_true] <;>
    split <;> simp_all

lemma match_user_text_eq (phrase s : String) (it : Bool)
    (hs : containsSubstr phrase s = true) :
    match_message phrase (.user (.text s) it) =
      .ok (some (.terminated .TERMINATION_MESSAGE "Termination message received.")) := by
  simp [match_message, check_user_message, hs]

lemma match_message_ok_of_well_typed (phrase : String) (m : Message)
    (h : message_well_typed m = true) :
    ∃ o, match_message phrase m = .ok o := by
  cases m with
  | user content it =>
      cases content with
      | text s =>
          by_cases h1 : containsSubstr phrase s = true <;> cases it <;>
            simp [match_message, check_user_message, pyInUserContent, h1]
      | parts l =>
          exact ⟨_, match_user_parts_eq phrase l it⟩
      | unrecognized tag => simp [message_well_typed] at h
  | assistant c =>
      cases c with
      | none => exact ⟨none, rfl⟩
      | some s =>
          by_cases h1 : containsSubstr phrase s = true <;> simp [match_message, h1]
  | otherRole => exact ⟨none, rfl⟩

lemma scan_ok_of_well_typed (phrase : String) (msgs : List Message)
    (h : ∀ m ∈ msgs, message_well_typed m = true) :
    ∃ r, scan_messages phrase msgs = .ok r := by
  induction msgs with
  | nil => exact ⟨.notTerminated, rfl⟩
  | cons m rest ih =>
      obtain ⟨o, ho⟩ := match_message_ok_of_well_typed phrase m (h m (by simp))
      cases o with
      | some r => exact ⟨r, scan_cons_some rest ho⟩
      | none =>
          obtain ⟨r, hr⟩ := ih fun m' hm' => h m' (by simp [hm'])
          exact ⟨r, by rw [scan_cons_none rest ho]; exact hr⟩

lemma match_eq_variant_of_textual (phrase : String) (m : Message)
    (h : user_content_textual m = true) :
    match_message phrase m = .ok (match_message_v phrase m) := by
  cases m with
  | user content it =>
      cases content with
      | text s =>
          by_cases h1 : containsSubstr phrase s = true <;> cases it <;>
            simp [match_message, match_message_v, check_user_message,
              check_user_message_v, pyInUserContent, h1]
      | parts l => simp [user_content_textual] at h
      | unrecognized tag => simp [user_content_textual] at h
  | assistant c =>
      cases c with
      | none => rfl
      | some s =>
          by_cases h1 : containsSubstr phrase s = true <;>
            simp [match_message, match_message_v, h1]
  | otherRole => rfl

lemma scan_eq_variant (phrase : String) (msgs : List Message)
    (h : ∀ m ∈ msgs, user_content_textual m = true) :
    scan_messages phrase msgs = .ok (scan_messages_v phrase msgs) := by
  induction msgs with
  | nil => rfl
  | cons m rest ih =>
      have hm := match_eq_variant_of_textual phrase m (h m (by simp))
      unfold scan_messages scan_messages_v
      rw [hm]
      cases match_message_v phrase m with
      | some r => rfl
      | none => exact ih fun m' hm' => h m' (by simp [hm'])

lemma match_scannable_empty_phrase (m : Message) (h : phrase_scannable m = true) :
    match_message "" m =
      .ok (some (.terminated .TERMINATION_MESSAGE "Termination message received.")) := by
  cases m with
  | user content it =>
      cases content with
      | text s => exact match_user_text_eq "" s it (containsSubstr_empty_left s)
      | parts l => simp [phrase_scannable] at h
      | unrecognized tag => simp [phrase_scannable] at h
  | assistant c =>
      cases c with
      | none => simp [phrase_scannable] at h
      | some s => simp [match_message, containsSubstr_empty_left]
  | otherRole => simp [phrase_scannable] at h

/-! Claim theorems. -/

/-- C1: if `turnsTaken >= maxTurns` when `check_termination` is called, it
returns `Terminated(MAX_TURNS_REACHED, "Max turns reached.")` for every
transcript, the verdict not depending on any message; and after exactly
`maxTurns` calls to `record_turn_taken` on a freshly constructed evaluator,
the next `check_termination` returns that verdict on any transcript. -/
theorem check_termination_turn_limit (st : DefaultTermination)
    (msgs msgs2 : List Message) (phrase : String) (n : Nat) (ag : Agent) :
    ((st.turns : Int) ≥ st.max_turns →
      check_termination st msgs =
        .ok (.terminated .MAX_TURNS_REACHED "Max turns reached.")) ∧
    check_termination (record_many ag n (DefaultTermination.init phrase (n : Int))) msgs2 =
      .ok (.terminated .MAX_TURNS_REACHED "Max turns reached.") := by
  constructor
  · intro h
    unfold check_termination
    rw [if_pos h]
  · rw [record_many_eq]
    unfold check_termination
    rw [if_pos (by simp [DefaultTermination.init])]

/-- Witness for C1 at concrete inputs: an evaluator with `maxTurns = 2` that
has taken 2 turns terminates on the empty transcript, and a fresh evaluator
with `maxTurns = 3` terminates after 3 recorded turns on a non-empty
transcript containing no termination signal. -/
theorem check_termination_turn_limit_witness :
    check_termination ⟨"TERMINATE", 2, 2⟩ [] =
      .ok (.terminated .MAX_TURNS_REACHED "Max turns reached.") ∧
    check_termination (record_many ⟨"a"⟩ 3 (DefaultTermination.init "TERMINATE" 3))
        [.user (.text "hello") false] =
      .ok (.terminated .MAX_TURNS_REACHED "Max turns reached.") :=
  ⟨(check_termination_turn_limit ⟨"TERMINATE", 2, 2⟩ [] [] "TERMINATE" 0 ⟨"a"⟩).1
      (by decide),
   (check_termination_turn_limit ⟨"TERMINATE", 2, 2⟩ []
      [.user (.text "hello") false] "TERMINATE" 3 ⟨"a"⟩).2⟩

/-- C2 counterexample: a user message with non-textual content (the multimodal
list `["TERMINATE"]`) and `is_termination` unset yields
`Terminated(TERMINATION_MESSAGE, ...)`: the unguarded second containment check
(source line 28) evaluates `phrase in list` as element-equality membership, so
the content IS inspected and the verdict is not limited to `USER_REQUESTED`. -/
theorem user_multimodal_inspected_cex :
    check_termination ⟨"TERMINATE", 10, 0⟩ [.user (.parts [.text "TERMINATE"]) false] =
      .ok (.terminated .TERMINATION_MESSAGE "Termination message received.") := by
  rfl

/-- C2 amended: a user message with non-textual (list) content is never scanned
for the phrase as a substring, but the second containment check still inspects
it by element equality: with `is_termination` set the verdict is
`USER_REQUESTED`; with it unset the verdict is `TERMINATION_MESSAGE` exactly
when some string element of the list equals the phrase, and no match
otherwise. -/
theorem user_multimodal_match_characterization (phrase : String)
    (l : List ContentPart) (it : Bool) :
    match_message phrase (.user (.parts l) it) =
      .ok (if it then some (.terminated .USER_REQUESTED "User requested termination.")
        else if l.any (fun p => match p with | .text s => s == phrase | .image _ => false) then
          some (.terminated .TERMINATION_MESSAGE "Termination message received.")
        else none) :=
  match_user_parts_eq phrase l it

/-- C3 counterexample: a user message whose content is outside the declared
union (non-string, non-iterable) with `is_termination` unset makes
`check_termination` raise `TypeError` from the unguarded containment check
(source line 28), instead of treating the message as non-matching and
returning `NotTerminated`. -/
theorem unrecognized_content_raises_cex :
    check_termination ⟨"TERMINATE", 10, 0⟩ [.user (.unrecognized 0) false] =
      .error .typeError := by
  rfl

/-- C3 amended: `check_termination` always returns a verdict and never raises
on every transcript whose messages stay inside the declared content types
(user content a string or a multimodal list); a non-string, non-iterable user
content with `is_termination` unset instead raises `TypeError`. -/
theorem check_termination_total_on_well_typed (st : DefaultTermination)
    (msgs : List Message) (h : ∀ m ∈ msgs, message_well_typed m = true) :
    ∃ r, check_termination st msgs = .ok r := by
  unfold check_termination
  split
  · exact ⟨_, rfl⟩
  · exact scan_ok_of_well_typed st.termination_message msgs h

/-- Witness for the amended C3 at a concrete well-typed transcript. -/
theorem check_termination_total_on_well_typed_witness :
    ∃ r, check_termination ⟨"TERMINATE", 10, 0⟩
        [.user (.text "hi") false, .user (.parts [.image 7]) false,
          .assistant none, .otherRole] = .ok r :=
  check_termination_total_on_well_typed ⟨"TERMINATE", 10, 0⟩
    [.user (.text "hi") false, .user (.parts [.image 7]) false,
      .assistant none, .otherRole] (by decide)

/-- C4 counterexample: removing the second phrase-containment check changes the
verdict on a user message with multimodal content `["TERMINATE"]` and
`is_termination` unset: the original returns
`Terminated(TERMINATION_MESSAGE, ...)` while the variant returns
`NotTerminated`, so sub-rule (c) is not dead code. -/
theorem dead_code_removal_cex :
    check_termination ⟨"TERMINATE", 10, 0⟩ [.user (.parts [.text "TERMINATE"]) false] =
        .ok (.terminated .TERMINATION_MESSAGE "Termination message received.") ∧
      check_termination_v ⟨"TERMINATE", 10, 0⟩ [.user (.parts [.text "TERMINATE"]) false] =
        .notTerminated := by
  exact ⟨rfl, rfl⟩

/-- C4 amended: the variant without the second containment check returns the
same verdict as the original on every evaluator state and every transcript in
which each user message has textual (string) content; the two differ only on
non-textual user content, where sub-rule (c) is reachable. -/
theorem check_termination_variant_agrees (st : DefaultTermination)
    (msgs : List Message) (h : ∀ m ∈ msgs, user_content_textual m = true) :
    check_termination st msgs = .ok (check_termination_v st msgs) := by
  by_cases hlim : (st.turns : Int) ≥ st.max_turns
  · unfold check_termination check_termination_v
    rw [if_pos hlim, if_pos hlim]
  · unfold check_termination check_termination_v
    rw [if_neg hlim, if_neg hlim]
    exact scan_eq_variant st.termination_message msgs h

/-- Witness for the amended C4 at a concrete all-textual transcript. -/
theorem check_termination_variant_agrees_witness :
    check_termination ⟨"TERMINATE", 10, 0⟩
        [.assistant (some "ok"), .user (.text "please TERMINATE") false] =
      .ok (check_termination_v ⟨"TERMINATE", 10, 0⟩
        [.assistant (some "ok"), .user (.text "please TERMINATE") false]) :=
  check_termination_variant_agrees ⟨"TERMINATE", 10, 0⟩
    [.assistant (some "ok"), .user (.text "please TERMINATE") false] (by decide)

/-- C5: when the turn limit is not reached, the scan is first-match-wins in
transcript order: if no message of the prefix matches and `m` matches with
verdict `r`, `check_termination` returns `r` whatever comes later. -/
theorem check_termination_first_match_wins (st : DefaultTermination)
    (pre : List Message) (m : Message) (rest : List Message) (r : TerminationResult)
    (hlim : (st.turns : Int) < st.max_turns)
    (hpre : ∀ m' ∈ pre, match_message st.termination_message m' = .ok none)
    (hm : match_message st.termination_message m = .ok (some r)) :
    check_termination st (pre ++ m :: rest) = .ok r :=
  check_first_match st pre m rest r hlim hpre hm

/-- Witness for C5, realising the claim's scenario: the earlier message matches
`USER_REQUESTED` and the later message would match `TERMINATION_MESSAGE`, and
the verdict is `USER_REQUESTED`. -/
theorem check_termination_first_match_wins_witness :
    check_termination ⟨"TERMINATE", 10, 0⟩
        [.user (.text "please stop") true, .user (.text "TERMINATE") false] =
      .ok (.terminated .USER_REQUESTED "User requested termination.") :=
  check_termination_first_match_wins ⟨"TERMINATE", 10, 0⟩ []
    (.user (.text "please stop") true) [.user (.text "TERMINATE") false]
    (.terminated .USER_REQUESTED "User requested termination.")
    (by decide) (by intro m' hm'; cases hm') (by rfl)

/-- C6: on a single user message carrying both signals (textual content
containing the phrase and `is_termination` set), the phrase match wins: with
the turn limit not reached and no earlier matching message the verdict is
`Terminated(TERMINATION_MESSAGE, "Termination message received.")`, not
`USER_REQUESTED`. -/
theorem phrase_match_beats_flag (st : DefaultTermination) (pre rest : List Message)
    (s : String)
    (hlim : (st.turns : Int) < st.max_turns)
    (hpre : ∀ m' ∈ pre, match_message st.termination_message m' = .ok none)
    (hs : containsSubstr st.termination_message s = true) :
    check_termination st (pre ++ .user (.text s) true :: rest) =
      .ok (.terminated .TERMINATION_MESSAGE "Termination message received.") :=
  check_first_match st pre (.user (.text s) true) rest
    (.terminated .TERMINATION_MESSAGE "Termination message received.")
    hlim hpre (match_user_text_eq st.termination_message s true hs)

/-- Witness for C6 at a concrete message carrying both signals. -/
theorem phrase_match_beats_flag_witness :
    check_termination ⟨"TERMINATE", 10, 0⟩ [.user (.text "ok TERMINATE now") true] =
      .ok (.terminated .TERMINATION_MESSAGE "Termination message received.") :=
  phrase_match_beats_flag ⟨"TERMINATE", 10, 0⟩ [] [] "ok TERMINATE now"
    (by decide) (by intro m' hm'; cases hm') (by rfl)

/-- C7: an assistant message with absent content never matches (so it can never
produce `Terminated(TERMINATION_MESSAGE, ...)`), and the scan continues past it
to the later messages unchanged. -/
theorem assistant_absent_content_inert (phrase : String) (rest : List Message) :
    match_message phrase (.assistant none) = .ok none ∧
      scan_messages phrase (.assistant none :: rest) = scan_messages phrase rest :=
  ⟨rfl, scan_cons_none rest rfl⟩

/-- C8: `check_termination` is a pure read of the evaluator state: the state
after the call is the state before it; `record_turn_taken` increments `turns`
by one and touches nothing else; `reset` zeroes `turns` and touches nothing
else — so `turns` is changed only by those two operations. -/
theorem check_termination_pure_state (st : DefaultTermination)
    (msgs : List Message) (ag : Agent) :
    (check_termination_s st msgs).2 = st ∧
      (record_turn_taken st ag).turns = st.turns + 1 ∧
      (record_turn_taken st ag).termination_message = st.termination_message ∧
      (record_turn_taken st ag).max_turns = st.max_turns ∧
      (reset st).turns = 0 ∧
      (reset st).termination_message = st.termination_message ∧
      (reset st).max_turns = st.max_turns :=
  ⟨rfl, rfl, rfl, rfl, rfl, rfl, rfl⟩

/-- C9: `reset` sets `turns` to 0, leaves the configuration unchanged, and is
idempotent: a second `reset` yields the same state as the first, on every
reachable evaluator state. -/
theorem reset_idempotent (st : DefaultTermination) :
    reset (reset st) = reset st ∧ (reset st).turns = 0 ∧
      (reset st).termination_message = st.termination_message ∧
      (reset st).max_turns = st.max_turns :=
  ⟨rfl, rfl, rfl, rfl⟩

/-- C10 counterexample: with the empty termination phrase, a transcript whose
first message is a non-textual user message with `is_termination` set and whose
second message is a textual user message yields
`Terminated(USER_REQUESTED, ...)`, not `Terminated(TERMINATION_MESSAGE, ...)`
at the first textual message — so the claim fails on transcripts with an
earlier non-textual match. -/
theorem empty_phrase_first_textual_cex :
    check_termination ⟨"", 10, 0⟩
        [.user (.parts []) true, .user (.text "hello") false] =
      .ok (.terminated .USER_REQUESTED "User requested termination.") := by
  rfl

/-- C10 amended: with the empty termination phrase (and the turn limit not
reached), every user message with textual content and every assistant message
with present content matches the phrase rule, and `check_termination` returns
`Terminated(TERMINATION_MESSAGE, ...)` at the first such message provided no
earlier message matches any rule. -/
theorem empty_phrase_matches_first_scannable (st : DefaultTermination)
    (pre : List Message) (m : Message) (rest : List Message)
    (hph : st.termination_message = "")
    (hlim : (st.turns : Int) < st.max_turns)
    (hpre : ∀ m' ∈ pre, match_message st.termination_message m' = .ok none)
    (hm : phrase_scannable m = true) :
    (∀ m', phrase_scannable m' = true →
      match_message "" m' =
        .ok (some (.terminated .TERMINATION_MESSAGE "Termination message received."))) ∧
    check_termination st (pre ++ m :: rest) =
      .ok (.terminated .TERMINATION_MESSAGE "Termination message received.") := by
  refine ⟨fun m' hm' => match_scannable_empty_phrase m' hm', ?_⟩
  apply check_first_match st pre m rest _ hlim hpre
  rw [hph]
  exact match_scannable_empty_phrase m hm

/-- Witness for the amended C10 at a concrete transcript headed by an inert
other-role message. -/
theorem empty_phrase_matches_first_scannable_witness :
    (∀ m', phrase_scannable m' = true →
      match_message "" m' =
        .ok (some (.terminated .TERMINATION_MESSAGE "Termination message received."))) ∧
    check_termination ⟨"", 10, 0⟩ [.otherRole, .user (.text "hello") false] =
      .ok (.terminated .TERMINATION_MESSAGE "Termination message received.") :=
  empty_phrase_matches_first_scannable ⟨"", 10, 0⟩ [.otherRole]
    (.user (.text "hello") false) [] rfl (by decide)
    (by intro m' hm'; simp only [List.mem_singleton] at hm'; rw [hm']; rfl)
    (by rfl)

end Autogen
